import Mathlib

/-
Verification of the koschei test-harness record-and-replay layer.

The development shallowly embeds the Python sources:
  - src/test/common.py: the koji_cassette fixture (AbstractTest.koji_cassette),
    DummyKoji, patch_config and service_ctor;
  - src/koschei/plugin.py: load_plugins.

Repository code that the fixture calls but that is not part of the given
sources (test/koji_vcr.py's KojiVCR and koschei.backend.koji_util.KojiSession)
is modelled from the specification; those definitions carry a doc comment
starting with "Modelled from the spec:".
-/

set_option linter.all false

namespace Koschei

/-! ## Python string helpers

Small structural models of the Python string operations the sources use,
written over the character list so that every definition reduces in the
kernel. -/

/-- Model of Python path.endswith(suffix): the suffix's characters are a
suffix of the string's characters. -/
def strEndsWith (s suffixStr : String) : Bool :=
  List.isSuffixOf suffixStr.toList s.toList

/-- Model of Python name.startswith(p): the characters of p are a prefix
of the string's characters. -/
def strStartsWith (s p : String) : Bool :=
  List.isPrefixOf p.toList s.toList

/-- Model of the Python slice s[:-n]: all characters but the last n
(empty when the string is shorter than n, as in Python). -/
def strDropRight (s : String) (n : Nat) : String :=
  String.mk (s.toList.take (s.toList.length - n))

/-- Model of Python key.split, splitting on the dot character.
splitDots of an empty character list is a single empty component, matching
Python where an empty string splits to a list holding one empty string. -/
def splitDots : List Char → List String
  | [] => [""]
  | c :: rest =>
    if c = '.' then "" :: splitDots rest
    else
      match splitDots rest with
      | [] => [String.mk [c]]
      | s :: ss => String.mk (c :: s.toList) :: ss

deriving instance DecidableEq for Except

/-! ## Errors raised by the embedded Python code -/

/-- Python exception kinds the embedded code can raise. -/
inductive PyError where
  | assertionError (msg : String)
  | typeError (msg : String)
  | keyError (key : String)
deriving DecidableEq

/-! ## DummyKoji (src/test/common.py lines 55-63) -/

/-- DummyKoji from src/test/common.py lines 55-63: a dummy Koji session for
tests that do not need to access Koji but still need a session object.
Its constructor stores koji_id as the only instance attribute. -/
structure DummyKoji where
  koji_id : String
deriving DecidableEq

/-- Attribute access on a DummyKoji. Python attribute lookup finds the
instance attribute koji_id set in the constructor; lookup of any other
name falls through to the class-level getattr hook
(src/test/common.py lines 62-63), which executes
assert False, "Unexpected access to Koji" before anything else can happen,
so no network interaction is possible. -/
def DummyKoji.getattr (d : DummyKoji) (key : String) : Except PyError String :=
  if key = "koji_id" then Except.ok d.koji_id
  else Except.error (PyError.assertionError "Unexpected access to Koji")

/-- AbstractTest.koji (src/test/common.py lines 75-84): the default session
accessor returns a DummyKoji for the requested koji_id. It is replaced by
get_koji for the duration of a koji_cassette scope. -/
def AbstractTest.koji (koji_id : String) : DummyKoji :=
  { koji_id := koji_id }

/-! ## Sessions and the koji_cassette scope (src/test/common.py lines 106-168) -/

/-- Modelled from the spec: koschei.backend.koji_util.KojiSession is
repository code that is not part of the given sources. Following spec
section 4.3, the session factory, given a logical-session identifier and an
authentication mode, produces the underlying live session pointed at a
configurable endpoint; following spec section 3, AuthMode is anonymous by
default, so a construction that does not pass an anonymous flag yields an
anonymous session. -/
structure KojiSession where
  koji_id : String
  anonymous : Bool
  server : String
deriving DecidableEq

/-- Modelled from the spec: test/koji_vcr.py's KojiVCR object is repository
code that is not part of the given sources. It binds a live session to a
list of cassette names (spec section 3, ProxySession); create_mock returns
the proxy standing in for that session. The proxy/cassette pair is
identified here by this record. -/
structure KojiVCR where
  session : KojiSession
  cassettes : List String
deriving DecidableEq

/-- The value the session accessor can hand out inside a koji_cassette
scope: either a VCR-backed mock or a DummyKoji. -/
inductive KojiObject where
  | mock (v : KojiVCR)
  | dummy (d : DummyKoji)
deriving DecidableEq

/-- The objects constructed by one koji_cassette scope
(src/test/common.py lines 145-152). secondary_vcr is present exactly when
the scope was entered with secondary_mode set. -/
structure CassetteScope where
  secondary_mode : Bool
  primary_vcr : KojiVCR
  secondary_vcr : Option KojiVCR
deriving DecidableEq

/-- Production default Koji endpoint
(src/test/common.py line 137). -/
def fedoraKojiUrl : String := "https://koji.fedoraproject.org/kojihub"

/-- The TEST_ALLOW_LOGGED_IN gate (src/test/common.py line 141):
logged_in is true exactly when the environment variable is set to one of
the strings in the tuple, false when unset or set to anything else,
because a Python membership test of None against that tuple is false. -/
def logged_in_gate (env : Option String) : Bool :=
  env == some "1" || env == some "true" || env == some "y"

/-- The object construction performed by koji_cassette
(src/test/common.py lines 135-152):
koji_url falls back to the production default when the test class sets no
koji_url attribute (lines 135-138); secondary_koji_url falls back to
koji_url (line 139); the primary KojiSession is built with
anonymous equal to not logged_in (line 145) and, both config patches being
active, points at koji_url; when secondary_mode is set a secondary
KojiSession is built with no anonymous argument (line 149, hence the
modelled anonymous default) pointing at secondary_koji_url, over cassette
names suffixed with ".secondary" (line 150). -/
def koji_cassette_setup (koji_url_attr secondary_koji_url_attr env : Option String)
    (cassettes : List String) (secondary_mode : Bool) : CassetteScope :=
  let koji_url := koji_url_attr.getD fedoraKojiUrl
  let secondary_koji_url := secondary_koji_url_attr.getD koji_url
  let logged_in := logged_in_gate env
  { secondary_mode := secondary_mode
    primary_vcr :=
      { session := { koji_id := "primary", anonymous := !logged_in, server := koji_url }
        cassettes := cassettes }
    secondary_vcr :=
      if secondary_mode then
        some { session := { koji_id := "secondary", anonymous := true,
                            server := secondary_koji_url }
               cassettes := cassettes.map (fun c => c ++ ".secondary") }
      else none }

/-- get_koji (src/test/common.py lines 154-160), the accessor installed in
place of AbstractTest.koji for the duration of the scope:
it asserts the koji_id is primary or secondary; for secondary it returns
the secondary mock when secondary_mode is set and a fresh
DummyKoji of id secondary otherwise; for primary it returns the primary
mock. The none arm of the secondary match is unreachable for scopes built
by koji_cassette_setup (Python would raise a NameError there, since
secondary_mock is only bound when secondary_mode is set). -/
def CassetteScope.get_koji (scope : CassetteScope) (koji_id : String) :
    Except PyError KojiObject :=
  if koji_id = "primary" ∨ koji_id = "secondary" then
    if koji_id = "secondary" then
      if scope.secondary_mode then
        match scope.secondary_vcr with
        | some v => Except.ok (KojiObject.mock v)
        | none => Except.error (PyError.assertionError "secondary_mock is not bound")
      else Except.ok (KojiObject.dummy { koji_id := "secondary" })
    else Except.ok (KojiObject.mock scope.primary_vcr)
  else Except.error (PyError.assertionError "koji_id not in (primary, secondary)")

/-! ## Execution trace of one koji_cassette scope

The body of koji_cassette (src/test/common.py lines 135-168) is straight
line code around a try/finally; the trace of observable actions is the same
list of events whether the yielded-to test body returns normally or raises,
because the finally clause runs on every exit path and the restore actions
of the two enclosing patch_config scopes run after it. -/

/-- One observable action of the koji_cassette scope. -/
inductive Event where
  | readAttr (name : String)
  | setConfig (key value : String)
  | constructSession (koji_id : String) (anonymous : Bool) (server : String)
  | createMock (koji_id : String) (cassettes : List String)
  | runBody (ok : Bool)
  | writeCassette (koji_id : String)
  | restoreConfig (key : String)
deriving DecidableEq

/-- Events performed by koji_cassette before yielding to the test body
(src/test/common.py lines 135-162): the two getattr reads, the two
patch_config sets, primary session construction and mock creation, and,
when secondary_mode is set, secondary session construction and mock
creation over the ".secondary"-suffixed cassette names. -/
def koji_cassette_setup_events (koji_url_attr secondary_koji_url_attr env : Option String)
    (cassettes : List String) (secondary_mode : Bool) : List Event :=
  Event.readAttr "koji_url" ::
  Event.readAttr "secondary_koji_url" ::
  Event.setConfig "koji_config.server" (koji_url_attr.getD fedoraKojiUrl) ::
  Event.setConfig "secondary_koji_config.server"
      (secondary_koji_url_attr.getD (koji_url_attr.getD fedoraKojiUrl)) ::
  Event.constructSession "primary" (!logged_in_gate env) (koji_url_attr.getD fedoraKojiUrl) ::
  Event.createMock "primary" cassettes ::
  (if secondary_mode then
    [Event.constructSession "secondary" true
        (secondary_koji_url_attr.getD (koji_url_attr.getD fedoraKojiUrl)),
     Event.createMock "secondary" (cassettes.map (fun c => c ++ ".secondary"))]
   else [])

/-- Events performed after the test body finishes
(src/test/common.py lines 165-168 and the patch_config finalizers,
lines 461-464): the finally clause writes the primary cassette and, when
secondary_mode is set, the secondary cassette; then the two patch_config
scopes restore their keys, innermost first. These run on every exit path
of the body. -/
def koji_cassette_finish_events (secondary_mode : Bool) : List Event :=
  Event.writeCassette "primary" ::
  ((if secondary_mode then [Event.writeCassette "secondary"] else []) ++
   [Event.restoreConfig "secondary_koji_config.server",
    Event.restoreConfig "koji_config.server"])

/-- The full trace of one koji_cassette scope whose test body finishes with
outcome bodyOk (true: normal return, false: it raised). The setup events,
then the body, then the finish events; the finish events do not depend on
the body's outcome because they sit in a finally clause
(src/test/common.py lines 163-168). -/
def koji_cassette_trace (koji_url_attr secondary_koji_url_attr env : Option String)
    (cassettes : List String) (secondary_mode bodyOk : Bool) : List Event :=
  koji_cassette_setup_events koji_url_attr secondary_koji_url_attr env cassettes secondary_mode
    ++ Event.runBody bodyOk :: koji_cassette_finish_events secondary_mode

/-- Number of writeCassette events for the given koji_id in a trace. -/
def countWrites (koji_id : String) (tr : List Event) : Nat :=
  tr.countP fun e =>
    match e with
    | Event.writeCassette k => k == koji_id
    | _ => false

/-- True when the optional secondary VCR session, if present, is anonymous. -/
def vcrAnonymous : Option KojiVCR → Bool
  | none => true
  | some v => v.session.anonymous

/-! ## The replay proxy (spec sections 4.2 and 7)

Modelled from the spec: test/koji_vcr.py, which implements the
record-and-replay proxy, is repository code that is not part of the given
sources. The definitions below follow spec sections 3, 4.2 and 7. -/

/-- Modelled from the spec: the outcome of one recorded call, either a
success value or a reproduced failure with kind and message
(spec section 3, Interaction). -/
inductive Outcome where
  | success (value : String)
  | failure (kind message : String)
deriving DecidableEq

/-- Modelled from the spec: one recorded call, with operation name,
serialized arguments and outcome (spec section 3, Interaction). -/
structure Interaction where
  operation : String
  arguments : String
  outcome : Outcome
deriving DecidableEq

/-- Modelled from the spec: the replay-side failure taxonomy
(spec section 7): CassetteMismatch when the next recorded interaction's
operation name differs from the one invoked, CassetteExhausted when more
calls occur than were recorded. -/
inductive CassetteError where
  | cassetteMismatch (recorded invoked : String)
  | cassetteExhausted
deriving DecidableEq

/-- Modelled from the spec: a ProxySession in REPLAY mode owns the loaded
interaction list and a cursor into it (spec section 3, ProxySession). -/
structure ProxySession where
  interactions : List Interaction
  cursor : Nat
deriving DecidableEq

/-- Result of one invocation through the proxy: the returned or raised
outcome, the proxy state afterwards, and how many live network calls the
invocation performed. -/
structure CallResult where
  result : Except CassetteError Outcome
  session : ProxySession
  liveCalls : Nat
deriving DecidableEq

/-- Modelled from the spec: one invocation through the proxy in REPLAY mode
(spec section 4.2): consume the next unconsumed interaction; if none
remains fail with an exhaustion error and never fall through to a live
call; if its recorded operation name differs from the one invoked fail with
a mismatch error before touching the network; otherwise return the recorded
outcome and advance the cursor. No branch performs a live call. -/
def replay_call (s : ProxySession) (op : String) : CallResult :=
  match s.interactions[s.cursor]? with
  | none =>
    { result := Except.error CassetteError.cassetteExhausted
      session := s
      liveCalls := 0 }
  | some i =>
    if i.operation = op then
      { result := Except.ok i.outcome
        session := { s with cursor := s.cursor + 1 }
        liveCalls := 0 }
    else
      { result := Except.error (CassetteError.cassetteMismatch i.operation op)
        session := s
        liveCalls := 0 }

/-- Modelled from the spec: one invocation through the proxy in RECORD mode
(spec section 4.2): invoke the real operation (one live call), append a new
interaction to the pending list and propagate the live outcome unchanged.
Present to contrast with replay_call, which performs no live call. -/
def record_call (s : ProxySession) (op : String) (args : String)
    (liveOutcome : Outcome) : CallResult :=
  { result := Except.ok liveOutcome
    session := { s with interactions := s.interactions ++ [⟨op, args, liveOutcome⟩] }
    liveCalls := 1 }

/-! ## Configuration patching (src/test/common.py lines 452-464) -/

/-- A configuration value: a leaf or a nested dictionary, the shape
get_config(None) returns. Dictionaries are association lists in insertion
order, as Python dicts are. -/
inductive ConfigValue where
  | str (s : String)
  | dict (entries : List (String × ConfigValue))
deriving Inhabited

/-- Python d[k] read on a dictionary level: first entry with the key. -/
def getAssoc : List (String × ConfigValue) → String → Option ConfigValue
  | [], _ => none
  | (k, v) :: rest, key => if k = key then some v else getAssoc rest key

/-- Python d[k] = v write on a dictionary level: replace the value of an
existing key in place, append otherwise. -/
def setAssoc : List (String × ConfigValue) → String → ConfigValue →
    List (String × ConfigValue)
  | [], key, v => [(key, v)]
  | (k, w) :: rest, key, v =>
    if k = key then (k, v) :: rest else (k, w) :: setAssoc rest key v

/-- Read the entry addressed by a component path: each component indexes a
dictionary level; reading fails (Python KeyError or TypeError) when a
component is missing or a leaf is indexed. -/
def lookupPath : List String → ConfigValue → Option ConfigValue
  | [], v => some v
  | key :: rest, ConfigValue.dict entries =>
    match getAssoc entries key with
    | some child => lookupPath rest child
    | none => none
  | _ :: _, ConfigValue.str _ => none

/-- Write the entry addressed by a component path, requiring every
component of the path to already exist, exactly as patch_config does:
the code walks config_dict[part] for every leading component and reads
old_value = config_dict[last] before assigning, so a missing component
raises before anything is written. -/
def updatePath : List String → ConfigValue → ConfigValue → Option ConfigValue
  | [], newVal, _ => some newVal
  | key :: rest, newVal, ConfigValue.dict entries =>
    match getAssoc entries key with
    | some child =>
      match updatePath rest newVal child with
      | some child2 => some (ConfigValue.dict (setAssoc entries key child2))
      | none => none
    | none => none
  | _ :: _, _, ConfigValue.str _ => none

/-- The component path of a dotted key, as computed by key.split
(src/test/common.py line 455); the starred unpacking into parts and last
is equivalent to walking all components but the last and then indexing by
the last, which updatePath performs over the whole component list. -/
def patch_config_path (key : String) : List String :=
  splitDots key.toList

/-- Entry half of patch_config (src/test/common.py lines 452-460): walk the
dotted key, remember the old value of the addressed entry and set it to the
new value. Returns the patched configuration together with the remembered
old value; fails when the path does not exist, as the Python code raises
KeyError. -/
def patch_config_enter (cfg : ConfigValue) (key : String) (v : ConfigValue) :
    Option (ConfigValue × ConfigValue) :=
  match lookupPath (patch_config_path key) cfg with
  | some _old =>
    match updatePath (patch_config_path key) v cfg with
    | some cfg2 =>
      match lookupPath (patch_config_path key) cfg with
      | some old => some (cfg2, old)
      | none => none
    | none => none
  | none => none

/-- A whole patch_config scope (src/test/common.py lines 452-464): enter,
run the body, restore the remembered old value in the finally clause.
bodyOk records whether the body returned normally (true) or raised
(false); the restore runs in either case, which is what the finally
clause guarantees. The body itself does not touch the configuration. -/
def patch_config_run (cfg : ConfigValue) (key : String) (v : ConfigValue)
    (bodyOk : Bool) : Option (ConfigValue × Bool) :=
  match patch_config_enter cfg key v with
  | some (cfg2, old) =>
    match updatePath (patch_config_path key) old cfg2 with
    | some cfg3 => some (cfg3, bodyOk)
    | none => none
  | none => none

/-- The recorded interaction of the spec's section 8 scenario, used to
instantiate the replay theorem at a concrete input. -/
def demoInteraction : Interaction :=
  { operation := "get_status", arguments := "[123]",
    outcome := Outcome.success "complete" }

/-- A replay session whose single recorded interaction is already
consumed. -/
def demoExhaustedSession : ProxySession :=
  { interactions := [demoInteraction], cursor := 1 }

/-- A replay session positioned at its single recorded interaction. -/
def demoFreshSession : ProxySession :=
  { interactions := [demoInteraction], cursor := 0 }

/-- A sample configuration shaped like the koschei test configuration,
used to instantiate the patch_config theorem at a concrete input. -/
def demoConfig : ConfigValue :=
  ConfigValue.dict
    [("koji_config", ConfigValue.dict
        [("server", ConfigValue.str "https://koji.fedoraproject.org/kojihub"),
         ("topurl", ConfigValue.str "https://kojipkgs.fedoraproject.org")]),
     ("secondary_koji_config", ConfigValue.dict
        [("server", ConfigValue.str "https://koji.fedoraproject.org/kojihub")])]

/-! ## Plugin loading (src/koschei/plugin.py lines 7-24) -/

/-- The module-level state of koschei.plugin: the loaded flag (line 7) and,
for observability, the names of plugin modules loaded so far. -/
structure PluginState where
  loaded : Bool
  loadedModules : List String
deriving DecidableEq

/-- The per-file test of load_plugins's loop body
(src/koschei/plugin.py lines 17-23): a directory entry contributes a loaded
module when it ends in ".py", its stem passes the only filter (no filter,
or membership) and the stem does not start with an underscore. -/
def plugin_module_of (only : Option (List String)) (path : String) : Option String :=
  if strEndsWith path ".py" then
    let name := strDropRight path 3
    if (match only with
        | none => true
        | some l => l.contains name) && !strStartsWith name "_" then
      some name
    else none
  else none

/-- load_plugins (src/koschei/plugin.py lines 14-24) as a state transformer
over the module-level state, parametrised by the plugin directory listing:
when the loaded flag is already set the body is skipped entirely;
otherwise every matching directory entry is loaded and the flag is set.
The second component of the result is the list of modules loaded by this
call. -/
def load_plugins (plugin_dir : List String) (only : Option (List String))
    (st : PluginState) : PluginState × List String :=
  if st.loaded then (st, [])
  else
    let mods := plugin_dir.filterMap (plugin_module_of only)
    ({ loaded := true, loadedModules := st.loadedModules ++ mods }, mods)

/-! ## service_ctor (src/test/common.py lines 514-520) -/

/-- A Python positional argument as supplied at the load_plugins call
sites in the sources: a plain string or a list of strings. -/
inductive PyArg where
  | str (s : String)
  | strList (l : List String)
deriving DecidableEq

/-- A Python-level call of load_plugins. The definition
def load_plugins(only=None) on src/koschei/plugin.py line 14 accepts at
most one positional argument, so the interpreter raises TypeError, before
the function body runs, whenever more are supplied. A single list argument
binds the only parameter; with no argument only keeps its None default
(a single plain-string argument does not occur in this repository). -/
def call_load_plugins (posArgs : List PyArg) (st : PluginState)
    (plugin_dir : List String) : Except PyError (PluginState × List String) :=
  match posArgs with
  | [] => Except.ok (load_plugins plugin_dir none st)
  | [PyArg.strList l] => Except.ok (load_plugins plugin_dir (some l) st)
  | [PyArg.str _] => Except.ok (load_plugins plugin_dir none st)
  | _ => Except.error (PyError.typeError
      "load_plugins() takes from 0 to 1 positional arguments but 2 were given")

/-- What an invocation of the constructor returned by service_ctor ends
as: a TypeError raised before the service is loaded, or the service loaded
by service.load_service and constructed. -/
inductive ServiceCallResult where
  | typeError (msg : String)
  | serviceLoaded (name : String)
deriving DecidableEq

/-- Python truthiness of the plugin_name argument: None and the empty
string are falsy, every other string is truthy. -/
def py_truthy (v : Option String) : Bool :=
  match v with
  | none => false
  | some s => !(s == "")

/-- The inner closure returned by service_ctor
(src/test/common.py lines 514-520): when plugin_name is truthy it calls
plugin.load_plugins(plugin_endpoint, [plugin_name]) with two positional
arguments; only if that call returns does it reach
service.load_service(name) and invoke the constructor. load_service is
repository code outside the given sources and is represented by the
serviceLoaded marker. -/
def service_ctor_inner (name : String) (plugin_name : Option String)
    (plugin_endpoint : String) (st : PluginState) (plugin_dir : List String) :
    ServiceCallResult :=
  if py_truthy plugin_name then
    match call_load_plugins
        [PyArg.str plugin_endpoint, PyArg.strList [plugin_name.getD ""]]
        st plugin_dir with
    | Except.error (PyError.typeError msg) => ServiceCallResult.typeError msg
    | Except.error _ => ServiceCallResult.typeError ""
    | Except.ok _ => ServiceCallResult.serviceLoaded name
  else ServiceCallResult.serviceLoaded name

/-! ## Association-list and path lemmas for patch_config -/

theorem getAssoc_setAssoc_self (l : List (String × ConfigValue)) (key : String)
    (v : ConfigValue) : getAssoc (setAssoc l key v) key = some v := by
  induction l with
  | nil => simp [getAssoc, setAssoc]
  | cons p rest ih =>
    obtain ⟨k, w⟩ := p
    by_cases h : k = key
    · simp [getAssoc, setAssoc, h]
    · simp [getAssoc, setAssoc, h, ih]

theorem setAssoc_setAssoc_cancel (l : List (String × ConfigValue)) (key : String)
    (v old : ConfigValue) (h : getAssoc l key = some old) :
    setAssoc (setAssoc l key v) key old = l := by
  induction l with
  | nil => simp [getAssoc] at h
  | cons p rest ih =>
    obtain ⟨k, w⟩ := p
    by_cases hk : k = key
    · simp [getAssoc, hk] at h
      simp [setAssoc, hk, h]
    · simp [getAssoc, hk] at h
      simp [setAssoc, hk, ih h]

theorem lookupPath_updatePath (p : List String) (v : ConfigValue) :
    ∀ cfg cfg2, updatePath p v cfg = some cfg2 → lookupPath p cfg2 = some v := by
  induction p with
  | nil =>
    intro cfg cfg2 h
    simp [updatePath] at h
    subst h
    rfl
  | cons key rest ih =>
    intro cfg cfg2 h
    cases cfg with
    | str s => simp [updatePath] at h
    | dict entries =>
      cases hg : getAssoc entries key with
      | none => simp [updatePath, hg] at h
      | some child =>
        cases hu : updatePath rest v child with
        | none => simp [updatePath, hg, hu] at h
        | some child2 =>
          simp [updatePath, hg, hu] at h
          subst h
          simp only [lookupPath, getAssoc_setAssoc_self]
          exact ih child child2 hu

theorem updatePath_isSome_of_lookupPath (p : List String) (v : ConfigValue) :
    ∀ cfg old, lookupPath p cfg = some old → (updatePath p v cfg).isSome = true := by
  induction p with
  | nil => intro cfg old _; rfl
  | cons key rest ih =>
    intro cfg old h
    cases cfg with
    | str s => simp [lookupPath] at h
    | dict entries =>
      cases hg : getAssoc entries key with
      | none => simp [lookupPath, hg] at h
      | some child =>
        simp [lookupPath, hg] at h
        have hs := ih child old h
        cases hu : updatePath rest v child with
        | none => rw [hu] at hs; simp at hs
        | some child2 => simp [updatePath, hg, hu]

theorem updatePath_restore (p : List String) (v : ConfigValue) :
    ∀ cfg cfg2 old, lookupPath p cfg = some old → updatePath p v cfg = some cfg2 →
      updatePath p old cfg2 = some cfg := by
  induction p with
  | nil =>
    intro cfg cfg2 old h1 h2
    simp [lookupPath] at h1
    simp [updatePath] at h2 ⊢
    exact h1.symm
  | cons key rest ih =>
    intro cfg cfg2 old h1 h2
    cases cfg with
    | str s => simp [lookupPath] at h1
    | dict entries =>
      cases hg : getAssoc entries key with
      | none => simp [lookupPath, hg] at h1
      | some child =>
        simp [lookupPath, hg] at h1
        cases hu : updatePath rest v child with
        | none => simp [updatePath, hg, hu] at h2
        | some child2 =>
          simp [updatePath, hg, hu] at h2
          subst h2
          have hrest := ih child child2 old h1 hu
          simp [updatePath, getAssoc_setAssoc_self, hrest,
            setAssoc_setAssoc_cancel entries key child2 child hg]

/-- C5: for every dotted configuration key whose path exists in the loaded
configuration and every value, patch_config sets the addressed entry to the
given value for the duration of the scope (the entered configuration holds
the new value at the addressed path) and, whether the body returns normally
or raises, the scope restores the entry's previous value on exit; the final
configuration is equal to the initial one, so in particular every other
configuration entry is left unchanged. -/
theorem C5_patch_config_scoped (cfg : ConfigValue) (key : String)
    (v old : ConfigValue) (bodyOk : Bool)
    (h : lookupPath (patch_config_path key) cfg = some old) :
    (patch_config_enter cfg key v).map Prod.snd = some old ∧
    (patch_config_enter cfg key v).bind
      (fun p => lookupPath (patch_config_path key) p.1) = some v ∧
    patch_config_run cfg key v bodyOk = some (cfg, bodyOk) := by
  have hupd := updatePath_isSome_of_lookupPath (patch_config_path key) v cfg old h
  cases hu : updatePath (patch_config_path key) v cfg with
  | none => rw [hu] at hupd; simp at hupd
  | some cfg2 =>
    have hl := lookupPath_updatePath (patch_config_path key) v cfg cfg2 hu
    have hr := updatePath_restore (patch_config_path key) v cfg cfg2 old h hu
    refine ⟨?_, ?_, ?_⟩ <;>
      simp [patch_config_enter, patch_config_run, h, hu, hl, hr]

theorem C5_patch_config_scoped_witness :
    lookupPath (patch_config_path "koji_config.server") demoConfig
      = some (ConfigValue.str "https://koji.fedoraproject.org/kojihub") ∧
    ((patch_config_enter demoConfig "koji_config.server"
        (ConfigValue.str "http://localhost:8000/kojihub")).map Prod.snd
      = some (ConfigValue.str "https://koji.fedoraproject.org/kojihub") ∧
     (patch_config_enter demoConfig "koji_config.server"
        (ConfigValue.str "http://localhost:8000/kojihub")).bind
        (fun p => lookupPath (patch_config_path "koji_config.server") p.1)
      = some (ConfigValue.str "http://localhost:8000/kojihub") ∧
     patch_config_run demoConfig "koji_config.server"
        (ConfigValue.str "http://localhost:8000/kojihub") false
      = some (demoConfig, false)) :=
  ⟨rfl, C5_patch_config_scoped demoConfig "koji_config.server"
      (ConfigValue.str "http://localhost:8000/kojihub")
      (ConfigValue.str "https://koji.fedoraproject.org/kojihub") false rfl⟩

/-! ## koji_cassette scope theorems -/

/-- C1: the claim states that in a koji_cassette scope entered with
secondary_mode disabled, the secondary role's accessor is aliased to the
primary role's proxy and cassette and returns the same results as primary.
Evaluating the embedded code at such a scope shows the opposite: get_koji
of secondary returns a fresh DummyKoji whose every attribute access raises
an assertion failure, while get_koji of primary returns the primary mock,
and the two results differ. This contradicts koji_cassette's own
docstring, which states that without secondary_mode requests for the
secondary session return the primary session. -/
theorem C1_secondary_accessor_not_aliased :
    (koji_cassette_setup none none none ["build/status"] false).get_koji "secondary"
      = Except.ok (KojiObject.dummy { koji_id := "secondary" }) ∧
    (koji_cassette_setup none none none ["build/status"] false).get_koji "primary"
      = Except.ok (KojiObject.mock
          (koji_cassette_setup none none none ["build/status"] false).primary_vcr) ∧
    (koji_cassette_setup none none none ["build/status"] false).get_koji "secondary"
      ≠ (koji_cassette_setup none none none ["build/status"] false).get_koji "primary" ∧
    DummyKoji.getattr { koji_id := "secondary" } "getBuild"
      = Except.error (PyError.assertionError "Unexpected access to Koji") :=
  ⟨rfl, rfl, by decide, rfl⟩

/-- C2: when TEST_ALLOW_LOGGED_IN is unset or set to any value other than
"1", "true" or "y", the logged_in gate is false, so the primary session is
constructed with anonymous true, and the secondary session (present only
when secondary_mode is set, and constructed without an anonymous argument,
hence anonymous by default) is anonymous as well: every live session the
scope constructs is anonymous. -/
theorem C2_auth_gate_forces_anonymous (koji_url_attr secondary_koji_url_attr env : Option String)
    (cassettes : List String) (secondary_mode : Bool)
    (h : logged_in_gate env = false) :
    (koji_cassette_setup koji_url_attr secondary_koji_url_attr env cassettes
        secondary_mode).primary_vcr.session.anonymous = true ∧
    vcrAnonymous (koji_cassette_setup koji_url_attr secondary_koji_url_attr env cassettes
        secondary_mode).secondary_vcr = true := by
  constructor
  · show (!logged_in_gate env) = true
    rw [h]
    rfl
  · show vcrAnonymous (if secondary_mode then _ else none) = true
    cases secondary_mode
    · rfl
    · rfl

theorem C2_auth_gate_witness :
    logged_in_gate (some "yes") = false ∧
    ((koji_cassette_setup none none (some "yes") ["c"] true).primary_vcr.session.anonymous
        = true ∧
     vcrAnonymous (koji_cassette_setup none none (some "yes") ["c"] true).secondary_vcr
        = true) :=
  ⟨rfl, C2_auth_gate_forces_anonymous none none (some "yes") ["c"] true rfl⟩

/-- C3: for every koji_cassette scope, whether the test body returns
normally or raises (bodyOk true or false), the scope's trace decomposes
into the setup events, the body, and the finish events; no cassette write
happens before the body, the primary cassette is written exactly once
after it, the secondary cassette is written exactly once after it when
secondary_mode is set and never otherwise, and the last event of the scope
comes after the writes (the outer config restore), so the writes fall
after the body and before the scope ends. -/
theorem C3_write_cassette_every_exit (koji_url_attr secondary_koji_url_attr env : Option String)
    (cassettes : List String) (secondary_mode bodyOk : Bool) :
    koji_cassette_trace koji_url_attr secondary_koji_url_attr env cassettes
        secondary_mode bodyOk
      = koji_cassette_setup_events koji_url_attr secondary_koji_url_attr env cassettes
          secondary_mode
        ++ Event.runBody bodyOk :: koji_cassette_finish_events secondary_mode ∧
    countWrites "primary" (koji_cassette_setup_events koji_url_attr secondary_koji_url_attr
        env cassettes secondary_mode) = 0 ∧
    countWrites "secondary" (koji_cassette_setup_events koji_url_attr secondary_koji_url_attr
        env cassettes secondary_mode) = 0 ∧
    countWrites "primary" (koji_cassette_finish_events secondary_mode) = 1 ∧
    countWrites "secondary" (koji_cassette_finish_events secondary_mode)
      = (if secondary_mode then 1 else 0) ∧
    (koji_cassette_finish_events secondary_mode).getLast?
      = some (Event.restoreConfig "koji_config.server") := by
  refine ⟨rfl, ?_, ?_, ?_, ?_, ?_⟩ <;> cases secondary_mode <;> rfl

/-- C6: for every koji_cassette scope entered with secondary_mode enabled
and every list of cassette names, a second VCR session is created whose
cassette names are the base names with the ".secondary" suffix appended,
and the secondary role's accessor returns that separate mock, which
differs from what the primary role's accessor returns. -/
theorem C6_secondary_mode_separate_cassettes
    (koji_url_attr secondary_koji_url_attr env : Option String) (cassettes : List String) :
    (koji_cassette_setup koji_url_attr secondary_koji_url_attr env cassettes true).secondary_vcr
      = some { session := { koji_id := "secondary", anonymous := true,
                            server := secondary_koji_url_attr.getD
                              (koji_url_attr.getD fedoraKojiUrl) }
               cassettes := cassettes.map (fun c => c ++ ".secondary") } ∧
    (koji_cassette_setup koji_url_attr secondary_koji_url_attr env cassettes true).get_koji
        "secondary"
      = Except.ok (KojiObject.mock
          { session := { koji_id := "secondary", anonymous := true,
                         server := secondary_koji_url_attr.getD
                           (koji_url_attr.getD fedoraKojiUrl) }
            cassettes := cassettes.map (fun c => c ++ ".secondary") }) ∧
    (koji_cassette_setup koji_url_attr secondary_koji_url_attr env cassettes true).get_koji
        "secondary"
      ≠ (koji_cassette_setup koji_url_attr secondary_koji_url_attr env cassettes true).get_koji
        "primary" := by
  refine ⟨rfl, rfl, ?_⟩
  intro h
  have hid : ("secondary" : String) = "primary" :=
    congrArg (fun r =>
      match r with
      | Except.ok (KojiObject.mock v) => v.session.koji_id
      | _ => "") h
  exact absurd hid (by decide)

/-- C7: a logical session not set up for record and replay is still
reachable through the accessor as a DummyKoji: the default accessor
AbstractTest.koji returns a DummyKoji for any koji_id, and inside a
koji_cassette scope without secondary_mode the accessor returns a DummyKoji
for the secondary role; accessing any attribute other than koji_id on a
DummyKoji raises an assertion failure immediately and performs no network
interaction, while the koji_id attribute itself is readable. -/
theorem C7_dummy_koji_fails_fast (kid key : String)
    (koji_url_attr secondary_koji_url_attr env : Option String) (cassettes : List String)
    (h : key ≠ "koji_id") :
    AbstractTest.koji kid = { koji_id := kid } ∧
    (koji_cassette_setup koji_url_attr secondary_koji_url_attr env cassettes false).get_koji
        "secondary"
      = Except.ok (KojiObject.dummy { koji_id := "secondary" }) ∧
    DummyKoji.getattr { koji_id := kid } key
      = Except.error (PyError.assertionError "Unexpected access to Koji") ∧
    DummyKoji.getattr { koji_id := kid } "koji_id" = Except.ok kid := by
  refine ⟨rfl, rfl, ?_, rfl⟩
  simp [DummyKoji.getattr, h]

theorem C7_dummy_koji_witness :
    ("listTagged" : String) ≠ "koji_id" ∧
    (AbstractTest.koji "secondary" = { koji_id := "secondary" } ∧
     (koji_cassette_setup none none none ["c"] false).get_koji "secondary"
       = Except.ok (KojiObject.dummy { koji_id := "secondary" }) ∧
     DummyKoji.getattr { koji_id := "secondary" } "listTagged"
       = Except.error (PyError.assertionError "Unexpected access to Koji") ∧
     DummyKoji.getattr { koji_id := "secondary" } "koji_id" = Except.ok "secondary") :=
  ⟨by decide, C7_dummy_koji_fails_fast "secondary" "listTagged" none none none ["c"]
      (by decide)⟩

/-- C8: within a koji_cassette scope the primary session's configured
endpoint equals the test class's koji_url attribute when set and the
production default otherwise, and the secondary session's endpoint, when a
secondary session exists, equals the secondary_koji_url attribute when set
and the primary endpoint otherwise; the trace begins with the two
attribute reads and the two configuration overrides, so both overrides are
read and applied before any session is constructed. -/
theorem C8_endpoint_configuration (koji_url_attr secondary_koji_url_attr env : Option String)
    (cassettes : List String) (secondary_mode bodyOk : Bool) :
    (koji_cassette_setup koji_url_attr secondary_koji_url_attr env cassettes
        secondary_mode).primary_vcr.session.server = koji_url_attr.getD fedoraKojiUrl ∧
    ((koji_cassette_setup koji_url_attr secondary_koji_url_attr env cassettes
        secondary_mode).secondary_vcr.map (fun v => v.session.server)
      = if secondary_mode then
          some (secondary_koji_url_attr.getD (koji_url_attr.getD fedoraKojiUrl))
        else none) ∧
    (∃ rest, koji_cassette_trace koji_url_attr secondary_koji_url_attr env cassettes
        secondary_mode bodyOk
      = Event.readAttr "koji_url" ::
        Event.readAttr "secondary_koji_url" ::
        Event.setConfig "koji_config.server" (koji_url_attr.getD fedoraKojiUrl) ::
        Event.setConfig "secondary_koji_config.server"
          (secondary_koji_url_attr.getD (koji_url_attr.getD fedoraKojiUrl)) ::
        Event.constructSession "primary" (!logged_in_gate env)
          (koji_url_attr.getD fedoraKojiUrl) :: rest) := by
  refine ⟨rfl, ?_, ⟨_, rfl⟩⟩
  cases secondary_mode
  · rfl
  · rfl

/-! ## Replay, plugin loading and service_ctor theorems -/

/-- C4: in REPLAY mode, for every invocation through the proxy, if no
unconsumed interaction remains the call fails with the exhaustion error,
the proxy state is unchanged and no live call is performed; and if the
next unconsumed interaction's operation name differs from the invoked one
the call fails with the mismatch error, the proxy state is unchanged and
no live call is performed. -/
theorem C4_replay_fail_fast (s : ProxySession) (op : String) :
    (s.interactions[s.cursor]? = none →
      replay_call s op
        = { result := Except.error CassetteError.cassetteExhausted
            session := s, liveCalls := 0 }) ∧
    (∀ i, s.interactions[s.cursor]? = some i → i.operation ≠ op →
      replay_call s op
        = { result := Except.error (CassetteError.cassetteMismatch i.operation op)
            session := s, liveCalls := 0 }) := by
  constructor
  · intro h
    simp [replay_call, h]
  · intro i h hne
    simp [replay_call, h, hne]

theorem C4_replay_fail_fast_witness :
    (demoExhaustedSession.interactions[demoExhaustedSession.cursor]?
        = (none : Option Interaction) ∧
     replay_call demoExhaustedSession "get_status"
       = { result := Except.error CassetteError.cassetteExhausted
           session := demoExhaustedSession, liveCalls := 0 }) ∧
    (demoFreshSession.interactions[demoFreshSession.cursor]? = some demoInteraction ∧
     demoInteraction.operation ≠ "listTags" ∧
     replay_call demoFreshSession "listTags"
       = { result := Except.error (CassetteError.cassetteMismatch "get_status" "listTags")
           session := demoFreshSession, liveCalls := 0 }) :=
  ⟨⟨rfl, (C4_replay_fail_fast demoExhaustedSession "get_status").1 rfl⟩,
   ⟨rfl, by decide,
    (C4_replay_fail_fast demoFreshSession "listTags").2 demoInteraction rfl (by decide)⟩⟩

/-- C9: load_plugins loads plugin modules only on the first call in a
process: once the loaded flag is set, a call returns the state unchanged
and loads nothing, regardless of the only argument; moreover any call
leaves the flag set, so a second call after any first call, with any
directory listing and any different plugin selection, has no effect. -/
theorem C9_load_plugins_idempotent (dir dir2 : List String)
    (only only2 : Option (List String)) (st : PluginState)
    (h : st.loaded = true) :
    load_plugins dir only st = (st, []) ∧
    (load_plugins dir2 only2 st).1.loaded = true ∧
    load_plugins dir only (load_plugins dir2 only2 st).1
      = ((load_plugins dir2 only2 st).1, []) := by
  have hskip : ∀ (d : List String) (o : Option (List String)) (s : PluginState),
      s.loaded = true → load_plugins d o s = (s, []) := by
    intro d o s hs
    simp [load_plugins, hs]
  have hset : ∀ (d : List String) (o : Option (List String)) (s : PluginState),
      (load_plugins d o s).1.loaded = true := by
    intro d o s
    by_cases hs : s.loaded = true
    · simp [load_plugins, hs]
    · simp [load_plugins, hs]
  exact ⟨hskip dir only st h, hset dir2 only2 st,
    hskip dir only (load_plugins dir2 only2 st).1 (hset dir2 only2 st)⟩

theorem C9_load_plugins_witness :
    (PluginState.mk true ["fedmsg"]).loaded = true ∧
    (load_plugins ["copr.py", "_base.py"] (some ["copr"]) (PluginState.mk true ["fedmsg"])
        = (PluginState.mk true ["fedmsg"], []) ∧
     (load_plugins ["osci.py"] none (PluginState.mk true ["fedmsg"])).1.loaded = true ∧
     load_plugins ["copr.py", "_base.py"] (some ["copr"])
        (load_plugins ["osci.py"] none (PluginState.mk true ["fedmsg"])).1
       = ((load_plugins ["osci.py"] none (PluginState.mk true ["fedmsg"])).1, [])) :=
  ⟨rfl, C9_load_plugins_idempotent ["copr.py", "_base.py"] ["osci.py"]
      (some ["copr"]) none (PluginState.mk true ["fedmsg"]) rfl⟩

/-- C10 counterexample: the claim quantifies over every non-None
plugin_name, but service_ctor's inner closure guards the load_plugins call
with Python truthiness, so the non-None yet falsy plugin_name given by the
empty string skips the call entirely: the invocation reaches
service.load_service and raises no TypeError. -/
theorem C10_falsy_plugin_name_counterexample :
    some "" ≠ (none : Option String) ∧
    service_ctor_inner "repo_resolver" (some "") "backend"
        (PluginState.mk false []) ["copr.py"]
      = ServiceCallResult.serviceLoaded "repo_resolver" :=
  ⟨by decide, rfl⟩

/-- C10 amended: for every service name and every truthy plugin_name (a
non-None, non-empty string), every invocation of the constructor returned
by service_ctor raises a TypeError before the service is loaded, because
the closure calls plugin.load_plugins with two positional arguments,
plugin_endpoint and the singleton plugin-name list, while load_plugins
accepts only one positional argument. -/
theorem C10_truthy_plugin_name_type_error (name plugin_endpoint : String)
    (plugin_name : Option String) (st : PluginState) (plugin_dir : List String)
    (h : py_truthy plugin_name = true) :
    service_ctor_inner name plugin_name plugin_endpoint st plugin_dir
      = ServiceCallResult.typeError
          "load_plugins() takes from 0 to 1 positional arguments but 2 were given" := by
  simp [service_ctor_inner, h, call_load_plugins]

theorem C10_truthy_plugin_name_witness :
    py_truthy (some "copr") = true ∧
    service_ctor_inner "polling" (some "copr") "backend" (PluginState.mk false [])
        ["copr.py"]
      = ServiceCallResult.typeError
          "load_plugins() takes from 0 to 1 positional arguments but 2 were given" :=
  ⟨rfl, C10_truthy_plugin_name_type_error "polling" "backend" (some "copr")
      (PluginState.mk false []) ["copr.py"] rfl⟩

end Koschei
